import Mathlib

/-!
Verification development for the clinical voice assistant's
dispatch / contract / validation protocol.

The Python source is shallowly embedded: JSON values become the inductive
type `JValue`; Python dictionaries are association lists with Python's
update semantics; Python runtime exceptions are modelled with
`Except String` (the exact exception message texts of the Python runtime
and of `json.JSONDecodeError` are abstracted to stand-in strings, since no
behaviour in the embedded code branches on them); `json.loads` is modelled
by the executable parser `json_loads` below, covering the JSON fragment
this code base produces and consumes (objects, arrays, strings with the
common escapes, integer numerals, `true`/`false`/`null`).
-/

/-- Model of a Python JSON value (`None`, `bool`, `int`, `str`, `list`,
`dict`), as produced by `json.loads` and manipulated by the agents. -/
inductive JValue where
  | null : JValue
  | bool : Bool → JValue
  | num : Int → JValue
  | str : String → JValue
  | arr : List JValue → JValue
  | obj : List (String × JValue) → JValue

namespace JValue

/-- Python truthiness: `None`, `False`, `0`, `""`, `[]`, `{}` are falsy. -/
def truthy : JValue → Bool
  | .null => false
  | .bool b => b
  | .num n => n != 0
  | .str s => s != ""
  | .arr xs => !xs.isEmpty
  | .obj fs => !fs.isEmpty

end JValue

/-- Decides whether a JSON value is exactly the Python string `s`,
modelling `j == "s"` comparisons in the source. -/
def jEqStr (j : JValue) (s : String) : Bool :=
  match j with
  | .str s' => s' = s
  | _ => false

/-- Decides whether `pat` is a prefix of `cs`. -/
def charsLeadWith (pat cs : List Char) : Bool :=
  match pat, cs with
  | [], _ => true
  | _ :: _, [] => false
  | p :: ps, c :: rest => p = c && charsLeadWith ps rest

/-- Decides whether `pat` occurs contiguously inside `cs`, the substring
test behind Python's `pat in s` on strings. -/
def charsInfixOf (pat cs : List Char) : Bool :=
  match cs with
  | [] => pat.isEmpty
  | _ :: rest => charsLeadWith pat cs || charsInfixOf pat rest

/-- Association-list lookup, modelling Python `dict` key lookup. -/
def assocFind (fs : List (String × JValue)) (k : String) : Option JValue :=
  match fs with
  | [] => none
  | (k', v) :: rest => if k' = k then some v else assocFind rest k

/-- Association-list update, modelling Python `dict` assignment: an
existing key keeps its position, a new key is appended at the end. -/
def assocSet (fs : List (String × JValue)) (k : String) (v : JValue) :
    List (String × JValue) :=
  match fs with
  | [] => [(k, v)]
  | (k', v') :: rest =>
      if k' = k then (k, v) :: rest else (k', v') :: assocSet rest k v

/-- Model of Python `d.get(key, default)`: raises `AttributeError` when the
receiver is not a dict. -/
def pyGet (j : JValue) (k : String) (default : JValue) : Except String JValue :=
  match j with
  | .obj fs => .ok ((assocFind fs k).getD default)
  | _ => .error "AttributeError: object has no attribute get"

/-- Model of Python `key in j` for a string key: dict membership on dicts,
element membership on lists, substring test on strings, `TypeError`
otherwise. -/
def pyContainsKey (k : String) (j : JValue) : Except String Bool :=
  match j with
  | .obj fs => .ok ((assocFind fs k).isSome)
  | .arr xs => .ok (xs.any (fun x => jEqStr x k))
  | .str s => .ok (charsInfixOf k.toList s.toList)
  | _ => .error "TypeError: argument is not iterable"

/-- Model of Python `j[key]` for a string key: dict subscript (raising
`KeyError` on a missing key), `TypeError` on any non-dict receiver. -/
def pySubscript (j : JValue) (k : String) : Except String JValue :=
  match j with
  | .obj fs =>
      match assocFind fs k with
      | some v => .ok v
      | none => .error ("KeyError: " ++ k)
  | _ => .error "TypeError: indices must be integers"

/-- Model of Python iteration `for x in j`: list elements for a list, keys
for a dict, one-character strings for a string, `TypeError` otherwise. -/
def pyIterate (j : JValue) : Except String (List JValue) :=
  match j with
  | .arr xs => .ok xs
  | .obj fs => .ok (fs.map (fun kv => .str kv.1))
  | .str s => .ok (s.toList.map (fun c => .str (String.singleton c)))
  | _ => .error "TypeError: object is not iterable"

/-- Model of Python `j.items()`: key/value pairs on a dict,
`AttributeError` otherwise. -/
def pyItems (j : JValue) : Except String (List (String × JValue)) :=
  match j with
  | .obj fs => .ok fs
  | _ => .error "AttributeError: object has no attribute items"

/-- Model of Python `f"{j}"` string interpolation (`str()` conversion) for
the values this code base interpolates: scalars print as Python prints
them; containers are rendered in a JSON-like form, which this development
never needs to compare against anything. -/
def pyFormat : JValue → String
  | .null => "None"
  | .bool true => "True"
  | .bool false => "False"
  | .num n => toString n
  | .str s => s
  | .arr _ => "[...]"
  | .obj _ => "{...}"

/-- ASCII lower-casing of one character, the fragment of Python
`str.lower` exercised by the routing keywords. -/
def asciiLowerChar (c : Char) : Char :=
  if 'A' ≤ c ∧ c ≤ 'Z' then Char.ofNat (c.toNat + 32) else c

/-- ASCII lower-casing of a string, modelling Python `str.lower` on the
ASCII utterances this system routes. -/
def pyLower (s : String) : String :=
  String.mk (s.toList.map asciiLowerChar)

/-- Decides whether `pat` occurs as a contiguous substring of `s`,
modelling Python `pat in s` on strings. -/
def containsSub (s pat : String) : Bool :=
  charsInfixOf pat.toList s.toList

/-- One pass of Python `str.replace` over a character list, replacing
non-overlapping occurrences of `old` left to right. `fuel` bounds the
recursion; one character is consumed per step, so `cs.length` suffices. -/
def replaceChars (old new : List Char) : Nat → List Char → List Char
  | _, [] => []
  | 0, cs => cs
  | Nat.succ fuel, c :: rest =>
      if charsLeadWith old (c :: rest) && !old.isEmpty then
        new ++ replaceChars old new fuel (List.drop (old.length - 1) rest)
      else
        c :: replaceChars old new fuel rest

/-- Model of Python `s.replace(old, new)` for non-empty `old` (the only
form the source uses). -/
def pyReplace (s old new : String) : String :=
  String.mk (replaceChars old.toList new.toList s.length s.toList)

/-- JSON / Python whitespace recognised by the lexer and by `str.strip`. -/
def isWsChar (c : Char) : Bool :=
  c = ' ' || c = '\t' || c = '\n' || c = '\r'

/-- Model of Python `s.strip()`. -/
def pyStrip (s : String) : String :=
  String.mk (((s.toList.dropWhile isWsChar).reverse.dropWhile isWsChar).reverse)

/-- Skips leading JSON whitespace. -/
def skipWs (cs : List Char) : List Char :=
  cs.dropWhile isWsChar

/-- Consumes the literal `word` from the front of `cs`, if present. -/
def stripWord (word cs : List Char) : Option (List Char) :=
  if charsLeadWith word cs then some (cs.drop word.length) else none

/-- Value of one hexadecimal digit, used for JSON `\uXXXX` escapes. -/
def hexVal (c : Char) : Option Nat :=
  if '0' ≤ c ∧ c ≤ '9' then some (c.toNat - '0'.toNat)
  else if 'a' ≤ c ∧ c ≤ 'f' then some (c.toNat - 'a'.toNat + 10)
  else if 'A' ≤ c ∧ c ≤ 'F' then some (c.toNat - 'A'.toNat + 10)
  else none

/-- Single-character JSON string escapes. -/
def escChar (c : Char) : Option Char :=
  if c = '"' then some '"'
  else if c = '\\' then some '\\'
  else if c = '/' then some '/'
  else if c = 'n' then some '\n'
  else if c = 't' then some '\t'
  else if c = 'r' then some '\r'
  else if c = 'b' then some (Char.ofNat 8)
  else if c = 'f' then some (Char.ofNat 12)
  else none

/-- Longest prefix of decimal digits and the remainder. -/
def spanDigits (cs : List Char) : List Char × List Char :=
  (cs.takeWhile Char.isDigit, cs.dropWhile Char.isDigit)

/-- Numeric value of a digit list. -/
def digitsToNat (ds : List Char) : Nat :=
  ds.foldl (fun acc c => acc * 10 + (c.toNat - '0'.toNat)) 0

/-- Parses a JSON integer literal (strict `json` grammar: no leading
zeros, and floats are outside the fragment this code base exchanges). -/
def parseIntLit (cs : List Char) : Option (JValue × List Char) :=
  let (neg, cs') := match cs with
    | '-' :: rest => (true, rest)
    | _ => (false, cs)
  match spanDigits cs' with
  | ([], _) => none
  | (ds, rest) =>
      if ds.length > 1 ∧ ds.headD '0' = '0' then none
      else
        match rest with
        | '.' :: _ => none
        | 'e' :: _ => none
        | 'E' :: _ => none
        | _ =>
            let n : Int := Int.ofNat (digitsToNat ds)
            some (.num (if neg then -n else n), rest)

mutual

/-- Fuel-bounded JSON value parser, the model of `json.loads` at one
position of the input. -/
def parseJValue : Nat → List Char → Option (JValue × List Char)
  | 0, _ => none
  | Nat.succ fuel, cs =>
      match skipWs cs with
      | [] => none
      | c :: rest =>
          if c = 'n' then
            (stripWord ['u', 'l', 'l'] rest).map (fun r => (.null, r))
          else if c = 't' then
            (stripWord ['r', 'u', 'e'] rest).map (fun r => (.bool true, r))
          else if c = 'f' then
            (stripWord ['a', 'l', 's', 'e'] rest).map (fun r => (.bool false, r))
          else if c = '"' then
            (parseStrChars fuel rest).map (fun p => (.str (String.mk p.1), p.2))
          else if c = '[' then
            match skipWs rest with
            | ']' :: r2 => some (.arr [], r2)
            | r2 => (parseArrItems fuel r2).map (fun p => (.arr p.1, p.2))
          else if c = '{' then
            match skipWs rest with
            | '}' :: r2 => some (.obj [], r2)
            | r2 =>
                (parseObjItems fuel r2).map
                  (fun p => (.obj (p.1.foldl (fun acc kv => assocSet acc kv.1 kv.2) []), p.2))
          else
            parseIntLit (c :: rest)

/-- Parses the body of a JSON string after the opening quote, handling
escapes and rejecting raw control characters as `json.loads` does. -/
def parseStrChars : Nat → List Char → Option (List Char × List Char)
  | 0, _ => none
  | Nat.succ fuel, cs =>
      match cs with
      | [] => none
      | '"' :: rest => some ([], rest)
      | '\\' :: e :: rest =>
          if e = 'u' then
            match rest with
            | h1 :: h2 :: h3 :: h4 :: rest2 =>
                match hexVal h1, hexVal h2, hexVal h3, hexVal h4 with
                | some a, some b, some c, some d =>
                    (parseStrChars fuel rest2).map
                      (fun p => (Char.ofNat (((a * 16 + b) * 16 + c) * 16 + d) :: p.1, p.2))
                | _, _, _, _ => none
            | _ => none
          else
            match escChar e with
            | some d => (parseStrChars fuel rest).map (fun p => (d :: p.1, p.2))
            | none => none
      | c :: rest =>
          if c.toNat < 32 then none
          else (parseStrChars fuel rest).map (fun p => (c :: p.1, p.2))

/-- Parses the comma-separated items of a non-empty JSON array, up to and
including the closing bracket. -/
def parseArrItems : Nat → List Char → Option (List JValue × List Char)
  | 0, _ => none
  | Nat.succ fuel, cs =>
      match parseJValue fuel cs with
      | none => none
      | some (v, rest) =>
          match skipWs rest with
          | ',' :: r2 => (parseArrItems fuel r2).map (fun p => (v :: p.1, p.2))
          | ']' :: r2 => some ([v], r2)
          | _ => none

/-- Parses the members of a non-empty JSON object in textual order, up to
and including the closing brace; the caller collapses repeated keys so
that the last value wins, as `json.loads` does. -/
def parseObjItems : Nat → List Char → Option (List (String × JValue) × List Char)
  | 0, _ => none
  | Nat.succ fuel, cs =>
      match skipWs cs with
      | '"' :: r1 =>
          match parseStrChars fuel r1 with
          | none => none
          | some (key, r2) =>
              match skipWs r2 with
              | ':' :: r3 =>
                  match parseJValue fuel r3 with
                  | none => none
                  | some (v, r4) =>
                      match skipWs r4 with
                      | ',' :: r5 =>
                          (parseObjItems fuel r5).map
                            (fun p => ((String.mk key, v) :: p.1, p.2))
                      | '}' :: r5 => some ([(String.mk key, v)], r5)
                      | _ => none
              | _ => none
      | _ => none

end

/-- Model of Python `json.loads`: parses a complete JSON document and
rejects trailing garbage. -/
def json_loads (s : String) : Option JValue :=
  match parseJValue (s.length * 4 + 16) s.toList with
  | some (j, rest) => if (skipWs rest).isEmpty then some j else none
  | none => none

/-- Stand-in for the text of a Python `json.JSONDecodeError` (the embedded
code only ever interpolates this text into error envelopes and never
branches on it). -/
def jsonDecodeErrMsg : String := "Expecting value"

/-- Decides Python `v in ops` for a JSON value against a list of Python
strings (an operation whitelist). -/
def jInStrList (v : JValue) (ops : List String) : Bool :=
  match v with
  | .str s => ops.contains s
  | _ => false

/-- Error envelope `dict(operation, status="error", data=None, error=e)`
in the source's key order for the `if error:` / `if not data:` returns. -/
def errorReturnEnvelope (op errVal : JValue) : JValue :=
  .obj [("operation", op), ("status", .str "error"), ("data", .null), ("error", errVal)]

/-- The `"No data provided for operation: <op>"` envelope returned by the
Scheduling, Medication, Order and Analytics agents on empty `data`. -/
def noDataEnvelope (op : JValue) : JValue :=
  errorReturnEnvelope op (.str ("No data provided for operation: " ++ pyFormat op))

/-- Success envelope `dict(operation, status="success", data, error=None)`. -/
def successEnvelope (op data : JValue) : JValue :=
  .obj [("operation", op), ("status", .str "success"), ("data", data), ("error", .null)]

/-- The `operation="unknown"` error envelope of the Scheduling, Medication,
Order and Analytics agents (their parse-failure returns and `except`
handlers), whose dict literal lists `error` before `data`. -/
def exceptEnvelope (msg : String) : JValue :=
  .obj [("operation", .str "unknown"), ("status", .str "error"),
        ("error", .str msg), ("data", .null)]

/-- The `operation="unknown"` error envelope of the EHR agent, whose dict
literal lists `data` before `error`. -/
def ehrExceptEnvelope (msg : String) : JValue :=
  .obj [("operation", .str "unknown"), ("status", .str "error"),
        ("data", .null), ("error", .str msg)]

/-- Envelope of the EHR CRUD handlers, which carry no `operation` key. -/
def handlerEnvelope (status : String) (data err : JValue) : JValue :=
  .obj [("status", .str status), ("data", data), ("error", err)]

/-- Outcome of one call to the language-model collaborator inside
`BaseMCPAgent._call_llm`: either the call raised, or it produced the raw
text of the first completion choice. -/
inductive LLMOutcome where
  | raised (msg : String)
  | completion (raw : String)

/-- Model of `json.loads` applied to the string `BaseMCPAgent._call_llm`
returns. The source's `_call_llm` strips the completion text, parses it,
and returns `json.dumps` of the parsed value — or `json.dumps` of its own
error dict when parsing or the call itself fails. Every caller immediately
re-parses that string with `json.loads`, and `loads (dumps x) = x` is a
Python `json` guarantee, so the composition is modelled directly on JSON
values; in particular the callers' own `json.JSONDecodeError` handlers are
unreachable on this path (they are analysed separately on arbitrary
strings by the `*_parse_stage` functions below). -/
def call_llm_value (o : LLMOutcome) : JValue :=
  match o with
  | .raised msg =>
      .obj [("status", .str "error"),
            ("error", .str ("Error calling LLM: " ++ msg)), ("data", .null)]
  | .completion raw =>
      match json_loads (pyStrip raw) with
      | some j => j
      | none =>
          .obj [("status", .str "error"),
                ("error", .str ("Invalid JSON response: " ++ jsonDecodeErrMsg)),
                ("data", .null)]

/-- Post-parse body shared verbatim by `MedicationAgent.process_message`,
`OrderAgent.process_message` and `AnalyticsAgent.process_message` (the
three source bodies are textually identical from the `operation =` line
on): read `operation`/`data`/`error`, branch on a truthy `error`, then on
falsy `data`, else echo `data` in a success envelope. -/
def standard_agent_body (rd : JValue) : Except String JValue := do
  let operation ← pyGet rd "operation" (.str "")
  let data ← pyGet rd "data" (.obj [])
  let error ← pyGet rd "error" .null
  if error.truthy then
    return errorReturnEnvelope operation error
  if !data.truthy then
    return noDataEnvelope operation
  return successEnvelope operation data

/-- Post-parse body of `SchedulingAgent.process_message`: like the
standard body, but before the success return it strips any `"error"` keys
from the entries of `data["available_appointments"]` when that key is
present. -/
def scheduling_body (rd : JValue) : Except String JValue := do
  let operation ← pyGet rd "operation" (.str "")
  let data ← pyGet rd "data" (.obj [])
  let error ← pyGet rd "error" .null
  if error.truthy then
    return errorReturnEnvelope operation error
  if !data.truthy then
    return noDataEnvelope operation
  let hasAA ← pyContainsKey "available_appointments" data
  let data ←
    if hasAA then do
      let appts ← pySubscript data "available_appointments"
      let items ← pyIterate appts
      let cleaned ← items.mapM (fun appt => do
        let kvs ← pyItems appt
        pure (JValue.obj (kvs.filter (fun kv => kv.1 != "error"))))
      match data with
      | .obj fs => pure (JValue.obj (assocSet fs "available_appointments" (.arr cleaned)))
      | _ => Except.error "TypeError: object does not support item assignment"
    else
      pure data
  return successEnvelope operation data

/-- External results the `EHRAgent` obtains from its PostgreSQL
collaborator, one field per distinct database call the agent makes. -/
structure EHRDb where
  connect : Except String Unit
  fetchRow : JValue → Except String (Option (List (String × JValue)))
  fetchAll : Except String (List (List (String × JValue)))
  executeUpdate : Except String String
  countPatients : Except String JValue
  insertPatient : Except String Unit

/-- Model of Python `int(x)` on the values `fetchval('SELECT COUNT(*)…')`
can yield here. -/
def pyIntOf (j : JValue) : Except String Int :=
  match j with
  | .num n => .ok n
  | .bool b => .ok (if b then 1 else 0)
  | _ => .error "TypeError: int argument must be a number"

/-- Zero-padded rendering of `f"{n:03d}"`. -/
def zeroPad3 (n : Int) : String :=
  if n < 0 then toString n
  else
    let s := toString n
    if s.length < 3 then String.mk (List.replicate (3 - s.length) '0') ++ s else s

/-- Model of `EHRAgent._handle_retrieve`. -/
def ehr_handle_retrieve (data : JValue) (db : EHRDb) : Except String JValue := do
  let patient_id ← pyGet data "patient_id" .null
  if patient_id.truthy then
    match ← db.fetchRow patient_id with
    | some row => return handlerEnvelope "success" (.obj row) .null
    | none =>
        return handlerEnvelope "error" .null
          (.str ("Patient " ++ pyFormat patient_id ++ " not found"))
  else
    let rows ← db.fetchAll
    return handlerEnvelope "success" (.arr (rows.map JValue.obj)) .null

/-- Model of `EHRAgent._handle_update`; the UPDATE query text is built
from `updates.items()` (raising on a non-dict `updates`) and its execution
result is compared against the `"UPDATE 1"` status tag. -/
def ehr_handle_update (data : JValue) (db : EHRDb) : Except String JValue := do
  let patient_id ← pyGet data "patient_id" .null
  let updates ← pyGet data "updates" (.obj [])
  if !updates.truthy then
    return handlerEnvelope "error" .null (.str "No update fields provided")
  let _ ← pyItems updates
  let result ← db.executeUpdate
  if result = "UPDATE 1" then
    return handlerEnvelope "success"
      (.obj [("patient_id", patient_id), ("updates", updates)]) .null
  else
    return handlerEnvelope "error" .null
      (.str ("Patient " ++ pyFormat patient_id ++ " not found"))

/-- Model of `EHRAgent._handle_create`: synthesize `P`-prefixed zero-padded
identifier from the current row count, insert, and return
`{"patient_id": pid, **data}`. -/
def ehr_handle_create (data : JValue) (db : EHRDb) : Except String JValue := do
  let cnt ← db.countPatients
  let base ← pyIntOf (if cnt.truthy then cnt else .num 0)
  let patient_id := "P" ++ zeroPad3 (base + 1)
  let _ ← pyGet data "name" (.str "Unknown")
  let _ ← pyGet data "medical_history" (.arr [])
  let _ ← pyGet data "medications" (.arr [])
  let _ ← pyGet data "allergies" (.arr [])
  let _ ← db.insertPatient
  match data with
  | .obj fs =>
      return handlerEnvelope "success"
        (.obj (fs.foldl (fun acc kv => assocSet acc kv.1 kv.2)
          [("patient_id", JValue.str patient_id)])) .null
  | _ => Except.error "TypeError: argument after ** must be a mapping"

/-- Post-parse body of `EHRAgent.process_message`: the standard
`error`/`data` gate (with the bare `"No data provided"` message), then
dispatch on `operation` to the three CRUD handlers, with an
`"Unsupported operation"` error envelope otherwise. -/
def ehr_body (rd : JValue) (db : EHRDb) : Except String JValue := do
  let operation ← pyGet rd "operation" (.str "")
  let data ← pyGet rd "data" (.obj [])
  let error ← pyGet rd "error" .null
  if error.truthy then
    return errorReturnEnvelope operation error
  if !data.truthy then
    return errorReturnEnvelope operation (.str "No data provided")
  if jEqStr operation "retrieve" then
    ehr_handle_retrieve data db
  else if jEqStr operation "update" then
    ehr_handle_update data db
  else if jEqStr operation "create" then
    ehr_handle_create data db
  else
    return errorReturnEnvelope operation (.str "Unsupported operation")

/-- The `json.loads` / repair stage of `SchedulingAgent.process_message`
applied to the string `_call_llm` returned: parse; on failure strip
backslash-n and backslash-quote artifacts and literal `"error": null`
fields, retry once; on a second failure early-return the
`operation="unknown"` envelope. -/
def scheduling_parse_stage (response : String) : Sum JValue JValue :=
  match json_loads response with
  | some j => .inl j
  | none =>
      let fixed := pyReplace (pyReplace response "\\n" " ") "\\\"" "\""
      let fixed := pyReplace (pyReplace fixed "\"error\": null," "") "\"error\": null" ""
      match json_loads fixed with
      | some j => .inl j
      | none => .inr (exceptEnvelope ("Invalid JSON response from LLM: " ++ jsonDecodeErrMsg))

/-- The `json.loads` / repair stage of `MedicationAgent.process_message`:
one repair pass stripping backslash-n and backslash-quote artifacts, one
retry, then the `operation="unknown"` envelope. -/
def medication_parse_stage (response : String) : Sum JValue JValue :=
  match json_loads response with
  | some j => .inl j
  | none =>
      let fixed := pyReplace (pyReplace response "\\n" " ") "\\\"" "\""
      match json_loads fixed with
      | some j => .inl j
      | none => .inr (exceptEnvelope ("Invalid JSON response from LLM: " ++ jsonDecodeErrMsg))

/-- The `json.loads` / repair stage of `EHRAgent.process_message`: same
repair pass as the Medication agent, but the failure envelope interpolates
the bare decode-error text and lists `data` before `error`. -/
def ehr_parse_stage (response : String) : Sum JValue JValue :=
  match json_loads response with
  | some j => .inl j
  | none =>
      let fixed := pyReplace (pyReplace response "\\n" " ") "\\\"" "\""
      match json_loads fixed with
      | some j => .inl j
      | none => .inr (ehrExceptEnvelope jsonDecodeErrMsg)

/-- The `json.loads` stage of `OrderAgent.process_message`: no repair
attempt — a parse failure returns the `operation="unknown"` envelope
immediately. -/
def order_parse_stage (response : String) : Sum JValue JValue :=
  match json_loads response with
  | some j => .inl j
  | none => .inr (exceptEnvelope ("Invalid JSON response from LLM: " ++ jsonDecodeErrMsg))

/-- The `json.loads` stage of `AnalyticsAgent.process_message`: no repair
attempt, identical to the Order agent's. -/
def analytics_parse_stage (response : String) : Sum JValue JValue :=
  match json_loads response with
  | some j => .inl j
  | none => .inr (exceptEnvelope ("Invalid JSON response from LLM: " ++ jsonDecodeErrMsg))

/-- Runs an agent's post-parse body under the enclosing `try`/`except` of
`process_message`, whose handler returns `handler e`. -/
def runWithHandler (body : Except String JValue) (handler : String → JValue) : JValue :=
  match body with
  | .ok r => r
  | .error e => handler e

/-- `SchedulingAgent.process_message` as a function of the string
`_call_llm` returned. -/
def scheduling_process_message_str (response : String) : JValue :=
  match scheduling_parse_stage response with
  | .inr env => env
  | .inl rd => runWithHandler (scheduling_body rd) exceptEnvelope

/-- `MedicationAgent.process_message` as a function of the string
`_call_llm` returned. -/
def medication_process_message_str (response : String) : JValue :=
  match medication_parse_stage response with
  | .inr env => env
  | .inl rd => runWithHandler (standard_agent_body rd) exceptEnvelope

/-- `OrderAgent.process_message` as a function of the string `_call_llm`
returned. -/
def order_process_message_str (response : String) : JValue :=
  match order_parse_stage response with
  | .inr env => env
  | .inl rd => runWithHandler (standard_agent_body rd) exceptEnvelope

/-- `AnalyticsAgent.process_message` as a function of the string
`_call_llm` returned. -/
def analytics_process_message_str (response : String) : JValue :=
  match analytics_parse_stage response with
  | .inr env => env
  | .inl rd => runWithHandler (standard_agent_body rd) exceptEnvelope

/-- `SchedulingAgent.process_message` composed with `_call_llm` (see
`call_llm_value`: the parse stage always succeeds on this path). -/
def scheduling_process_message (o : LLMOutcome) : JValue :=
  runWithHandler (scheduling_body (call_llm_value o)) exceptEnvelope

/-- `MedicationAgent.process_message` composed with `_call_llm`. -/
def medication_process_message (o : LLMOutcome) : JValue :=
  runWithHandler (standard_agent_body (call_llm_value o)) exceptEnvelope

/-- `OrderAgent.process_message` composed with `_call_llm`. -/
def order_process_message (o : LLMOutcome) : JValue :=
  runWithHandler (standard_agent_body (call_llm_value o)) exceptEnvelope

/-- `AnalyticsAgent.process_message` composed with `_call_llm`. -/
def analytics_process_message (o : LLMOutcome) : JValue :=
  runWithHandler (standard_agent_body (call_llm_value o)) exceptEnvelope

/-- `EHRAgent.process_message` composed with `_call_llm`. The
`await self._connect_db()` call sits before the `try:` block in the
source, so a connection failure propagates to the caller instead of being
converted to an error envelope; every later failure is caught. -/
def ehr_process_message (o : LLMOutcome) (db : EHRDb) : Except String JValue :=
  match db.connect with
  | .error e => .error e
  | .ok _ => .ok (runWithHandler (ehr_body (call_llm_value o) db) ehrExceptEnvelope)

/-- The per-agent operation whitelists of
`InspectorAgent.validate_response`, in source order. -/
def valid_operations : List (String × List String) :=
  [("EHRAgent", ["retrieve", "update", "create"]),
   ("MedicationAgent", ["check_interactions", "verify_dosage", "get_info"]),
   ("OrderAgent", ["create_order", "verify_order", "cancel_order"]),
   ("ClinicalDecisionAgent", ["analyze_case", "check_guidelines", "assess_risk"]),
   ("SchedulingAgent",
    ["check_availability", "schedule_appointment", "reschedule_appointment",
     "cancel_appointment"]),
   ("AnalyticsAgent", ["generate_metrics", "check_compliance", "analyze_trends"])]

/-- Whitelist lookup, modelling `agent_name in valid_operations` plus
`valid_operations[agent_name]`. -/
def lookupOps (name : String) : Option (List String) :=
  (valid_operations.find? (fun p => p.1 == name)).map Prod.snd

/-- The response envelope `InspectorAgent.validate_response` builds, in
the source's key order, parametrised by the top-level status, the
validation verdict and its two lists, and the top-level `error` value. -/
def validationEnvelope (status : String) (isValid : Bool)
    (violations suggestions : List String) (err : JValue) : JValue :=
  .obj [("status", .str status),
        ("data", .obj [("validation_result", .obj
          [("is_valid", .bool isValid),
           ("violations", .arr (violations.map JValue.str)),
           ("suggestions", .arr (suggestions.map JValue.str))])]),
        ("error", err)]

/-- Body of `InspectorAgent.validate_response` inside its `try`: the
required-field check (the comprehension over the literal three-element
`required_fields` list is unrolled), then the whitelist check for known
agents, then the `data`-must-be-a-dict check, each early-returning its
envelope. -/
def validate_body (agent_name : String) (response : JValue) : Except String JValue := do
  let hasOp ← pyContainsKey "operation" response
  let hasStatus ← pyContainsKey "status" response
  let hasData ← pyContainsKey "data" response
  let missing := (if !hasOp then ["operation"] else []) ++
    (if !hasStatus then ["status"] else []) ++ (if !hasData then ["data"] else [])
  if !missing.isEmpty then
    return validationEnvelope "error" false
      (missing.map (fun f => "Missing required field: " ++ f))
      ["Ensure all required fields are present in the response"] .null
  let opEnv : Option JValue ←
    match lookupOps agent_name with
    | some ops => do
        let opVal ← pySubscript response "operation"
        if !(jInStrList opVal ops) then
          pure (some (validationEnvelope "error" false
            ["Invalid operation: " ++ pyFormat opVal]
            ["Valid operations for " ++ agent_name ++ ": " ++
              String.intercalate ", " ops] .null))
        else
          pure none
    | none => pure none
  match opEnv with
  | some env => return env
  | none => do
      let dataVal ← pySubscript response "data"
      match dataVal with
      | .obj _ =>
          return validationEnvelope "success" true [] [] .null
      | _ =>
          return validationEnvelope "error" false
            ["Data field must be a dictionary"]
            ["Ensure data field is a valid JSON object"] .null

/-- `InspectorAgent.validate_response`: the body under its
`except Exception` handler, which reports the exception text as the only
violation and as the top-level `error`. -/
def validate_response (agent_name : String) (response : JValue) : JValue :=
  match validate_body agent_name response with
  | .ok r => r
  | .error e =>
      validationEnvelope "error" false [e]
        ["Check response format and structure"] (.str e)

/-- The Inspector's `agent_states` store: one slot per agent name. -/
abbrev InspState := List (String × JValue)

/-- `InspectorAgent.monitor_state`: read the previous slot (defaulting to
the empty dict), overwrite it with the new state, and return the
`state_changes` envelope. The body performs only dict operations, so its
`except` handler is unreachable and the model is total. -/
def monitor_state (agent_name : String) (new_state : JValue) (st : InspState) :
    JValue × InspState :=
  let previous := (assocFind st agent_name).getD (.obj [])
  let st' := assocSet st agent_name new_state
  (.obj [("status", .str "success"),
         ("data", .obj [("state_changes", .obj
            [("agent", .str agent_name),
             ("previous_state", previous),
             ("new_state", new_state)])]),
         ("error", .null)], st')

/-- The closed set of agents the keyword router can select. -/
inductive AgentTag where
  | clinicalDecision
  | ehr
  | medication
  | order
  | scheduling
  | analytics
  deriving DecidableEq

/-- Python class name of a routed agent (`agent.__class__.__name__`), the
identity handed to the Inspector. -/
def className : AgentTag → String
  | .clinicalDecision => "ClinicalDecisionAgent"
  | .ehr => "EHRAgent"
  | .medication => "MedicationAgent"
  | .order => "OrderAgent"
  | .scheduling => "SchedulingAgent"
  | .analytics => "AnalyticsAgent"

/-- Decides `any(keyword in command_lower for keyword in kws)`. -/
def matchesAny (lower : String) (kws : List String) : Bool :=
  kws.any (fun k => containsSub lower k)

/-- The keyword dispatch of `ClinicalVoiceAssistant.handle_transcription`:
lower-case the utterance and walk the `if`/`elif` keyword chain in source
order, returning the first matching agent. -/
def route (text : String) : Option AgentTag :=
  let command_lower := pyLower text
  if matchesAny command_lower ["guideline", "clinical", "latest", "standard", "protocol"] then
    some .clinicalDecision
  else if matchesAny command_lower ["history", "record", "patient", "medical"] then
    some .ehr
  else if matchesAny command_lower ["medication", "drug", "prescription", "interaction"] then
    some .medication
  else if matchesAny command_lower ["order", "test", "lab", "procedure"] then
    some .order
  else if matchesAny command_lower ["schedule", "appointment", "available", "book", "cancel"] then
    some .scheduling
  else if matchesAny command_lower ["report", "trend", "analytics", "statistic"] then
    some .analytics
  else
    none

/-- Specification-side routing table: the documented category priority
list, written as data in the spec's order (clinical-guideline,
patient-record, medication, order, scheduling, analytics). -/
def priorityCategories : List (AgentTag × List String) :=
  [(.clinicalDecision, ["guideline", "clinical", "latest", "standard", "protocol"]),
   (.ehr, ["history", "record", "patient", "medical"]),
   (.medication, ["medication", "drug", "prescription", "interaction"]),
   (.order, ["order", "test", "lab", "procedure"]),
   (.scheduling, ["schedule", "appointment", "available", "book", "cancel"]),
   (.analytics, ["report", "trend", "analytics", "statistic"])]

/-- Specification-side router, following the spec's words: select the
first category of the priority list one of whose keywords occurs as a
substring of the lower-cased utterance. Compared against `route` in C2. -/
def routeSpec (text : String) : Option AgentTag :=
  (priorityCategories.find?
    (fun cat => cat.2.any (fun k => containsSub (pyLower text) k))).map Prod.fst

/-- What one run of the Orchestrator loop body prints at the end:
the clarification request for unrouted text, the caught-exception message,
the validation-failure report, or the formatted response payload.
Presentation formatting itself is an out-of-scope collaborator, so the
outcome carries the value that would be rendered. -/
inductive OrchOutcome where
  | unhandled
  | exceptionCaught (msg : String)
  | validationFailed (validation : JValue)
  | rendered (response : JValue)

/-- Result of one `ClinicalVoiceAssistant.handle_transcription` run: the
Inspector state afterwards, which state-monitor call (if any) was made,
and what was rendered. -/
structure OrchResult where
  state : InspState
  monitored : Option (String × JValue)
  outcome : OrchOutcome

/-- The abort condition of the Orchestrator:
`validation.get('status') == 'error' or not validation.get('data', {})
.get('validation_result', {}).get('is_valid', False)`. -/
def orchCondition (validation : JValue) : Except String Bool := do
  let st ← pyGet validation "status" .null
  let d ← pyGet validation "data" (.obj [])
  let vr ← pyGet d "validation_result" (.obj [])
  let iv ← pyGet vr "is_valid" (.bool false)
  pure (jEqStr st "error" || !iv.truthy)

/-- Invocation of the routed agent. The `clinicalDecision` case raises:
`ClinicalDecisionAgent` defines neither `_format_response` (read in the
routing branch) nor `process_message`, so routing to it raises an
`AttributeError` inside the orchestrator's `try` block. -/
def agent_process_dispatch (tag : AgentTag) (o : LLMOutcome) (db : EHRDb) :
    Except String JValue :=
  match tag with
  | .clinicalDecision =>
      .error "AttributeError: ClinicalDecisionAgent has no attribute"
  | .ehr => ehr_process_message o db
  | .medication => .ok (medication_process_message o)
  | .order => .ok (order_process_message o)
  | .scheduling => .ok (scheduling_process_message o)
  | .analytics => .ok (analytics_process_message o)

/-- `ClinicalVoiceAssistant.handle_transcription` for one utterance:
route; invoke the routed agent's `process_message`; validate with the
Inspector; on the abort condition render the validation report and stop,
otherwise record the response with the state monitor and render it. The
whole body sits in a `try`/`except` that prints the exception message. -/
def handle_transcription (text : String) (o : LLMOutcome) (db : EHRDb)
    (st : InspState) : OrchResult :=
  match route text with
  | none => ⟨st, none, .unhandled⟩
  | some tag =>
      let name := className tag
      match agent_process_dispatch tag o db with
      | .error e => ⟨st, none, .exceptionCaught e⟩
      | .ok response =>
          let validation := validate_response name response
          match orchCondition validation with
          | .error e => ⟨st, none, .exceptionCaught e⟩
          | .ok cond =>
              if cond then
                ⟨st, none, .validationFailed validation⟩
              else
                let step := monitor_state name response st
                ⟨step.2, some (name, response), .rendered response⟩

/-- Top-level field of a response dict, for stating properties. -/
def respField (r : JValue) (k : String) : Option JValue :=
  match r with
  | .obj fs => assocFind fs k
  | _ => none

/-- The `is_valid` verdict buried in a Validator envelope. -/
def isValidFlag (validation : JValue) : Option JValue :=
  (respField validation "data").bind fun d =>
    (respField d "validation_result").bind fun vr => respField vr "is_valid"

theorem assocFind_assocSet_self (fs : List (String × JValue)) (k : String) (v : JValue) :
    assocFind (assocSet fs k v) k = some v := by
  induction fs with
  | nil => simp [assocSet, assocFind]
  | cons hd tl ih =>
      obtain ⟨k', v'⟩ := hd
      by_cases h : k' = k <;> simp [assocSet, assocFind, h, ih]

theorem assocSet_assocSet_self (fs : List (String × JValue)) (k : String) (v : JValue) :
    assocSet (assocSet fs k v) k v = assocSet fs k v := by
  induction fs with
  | nil => simp [assocSet]
  | cons hd tl ih =>
      obtain ⟨k', v'⟩ := hd
      by_cases h : k' = k <;> simp [assocSet, h, ih]

/-- C9: two sequential `monitor_state(id, S)` calls leave `previous == new
== S` in the second call's `state_changes` envelope, the stored slot for
`id` still holds `S`, and the second overwrite adds no further change to
the store. -/
theorem monitor_state_idempotent (st : InspState) (id : String) (S : JValue) :
    (monitor_state id S (monitor_state id S st).2).1 =
      .obj [("status", .str "success"),
            ("data", .obj [("state_changes", .obj
               [("agent", .str id), ("previous_state", S), ("new_state", S)])]),
            ("error", .null)]
    ∧ assocFind (monitor_state id S (monitor_state id S st).2).2 id = some S
    ∧ (monitor_state id S (monitor_state id S st).2).2 = (monitor_state id S st).2 := by
  unfold monitor_state
  simp [assocFind_assocSet_self, assocSet_assocSet_self]

/-- C10: the first `monitor_state(id, S)` call for an unseen identity
reports the empty dict (not `None`) as the previous state, and stores `S`
in the slot for `id`. -/
theorem monitor_state_first_call (st : InspState) (id : String) (S : JValue)
    (h : assocFind st id = none) :
    (monitor_state id S st).1 =
      .obj [("status", .str "success"),
            ("data", .obj [("state_changes", .obj
               [("agent", .str id), ("previous_state", .obj []), ("new_state", S)])]),
            ("error", .null)]
    ∧ assocFind (monitor_state id S st).2 id = some S := by
  unfold monitor_state
  simp [h, assocFind_assocSet_self]

/-- Witness for C10 at a fresh store. -/
theorem monitor_state_first_call_witness :
    assocFind ([] : InspState) "SchedulingAgent" = none ∧
    ((monitor_state "SchedulingAgent" (.num 7) ([] : InspState)).1 =
      .obj [("status", .str "success"),
            ("data", .obj [("state_changes", .obj
               [("agent", .str "SchedulingAgent"), ("previous_state", .obj []),
                ("new_state", .num 7)])]),
            ("error", .null)]
     ∧ assocFind (monitor_state "SchedulingAgent" (.num 7) ([] : InspState)).2
         "SchedulingAgent" = some (.num 7)) :=
  ⟨rfl, monitor_state_first_call [] "SchedulingAgent" (.num 7) rfl⟩

/-- The boundary utterance of C2, "Show me John Smith's medication order
history" (the apostrophe is assembled explicitly). -/
def exampleUtterance : String :=
  "Show me John Smith" ++ String.singleton (Char.ofNat 39) ++
    "s medication order history"

/-- C2: routing equals first-match over the spec's priority list
(clinical-guideline, patient-record, medication, order, scheduling,
analytics keywords, substring match on the lower-cased utterance), and the
multi-category boundary utterance routes to the patient-record (EHR)
agent. -/
theorem route_matches_priority_list :
    (∀ u, route u = routeSpec u) ∧ route exampleUtterance = some .ehr := by
  constructor
  · intro u
    simp only [route, routeSpec, priorityCategories, matchesAny]
    by_cases h1 : (["guideline", "clinical", "latest", "standard",
      "protocol"].any (fun k => containsSub (pyLower u) k)) = true <;>
    by_cases h2 : (["history", "record", "patient", "medical"].any
      (fun k => containsSub (pyLower u) k)) = true <;>
    by_cases h3 : (["medication", "drug", "prescription", "interaction"].any
      (fun k => containsSub (pyLower u) k)) = true <;>
    by_cases h4 : (["order", "test", "lab", "procedure"].any
      (fun k => containsSub (pyLower u) k)) = true <;>
    by_cases h5 : (["schedule", "appointment", "available", "book",
      "cancel"].any (fun k => containsSub (pyLower u) k)) = true <;>
    by_cases h6 : (["report", "trend", "analytics", "statistic"].any
      (fun k => containsSub (pyLower u) k)) = true <;>
      simp [List.find?, h1, h2, h3, h4, h5, h6]
  · rfl

/-- C4: for any agent identity with a known whitelist and a response with
all required keys whose string `operation` is outside the whitelist,
`validate_response` returns the single violation `Invalid operation: <op>`
with a suggestion listing the exact whitelist. -/
theorem validate_whitelist_violation (name : String) (ops : List String)
    (fs : List (String × JValue)) (op : String)
    (hops : lookupOps name = some ops)
    (hop : assocFind fs "operation" = some (.str op))
    (hst : (assocFind fs "status").isSome = true)
    (hda : (assocFind fs "data").isSome = true)
    (hmem : ops.contains op = false) :
    validate_response name (.obj fs) =
      validationEnvelope "error" false ["Invalid operation: " ++ op]
        ["Valid operations for " ++ name ++ ": " ++ String.intercalate ", " ops]
        .null := by
  have hmem' : ¬ op ∈ ops := by simpa using hmem
  simp [validate_response, validate_body, pyContainsKey, pySubscript, hops, hop,
    hst, hda, hmem', jInStrList, pyFormat, Except.bind, bind, pure, Except.pure]

/-- Witness for C4: the EHR agent (whitelist retrieve/update/create)
receiving `operation="delete_patient"`. -/
theorem validate_whitelist_violation_witness :
    validate_response "EHRAgent"
      (.obj [("operation", .str "delete_patient"), ("status", .str "success"),
             ("data", .obj [("patient_id", .str "P001")])]) =
      validationEnvelope "error" false ["Invalid operation: delete_patient"]
        ["Valid operations for EHRAgent: retrieve, update, create"] .null := by
  have h := validate_whitelist_violation "EHRAgent" ["retrieve", "update", "create"]
    [("operation", .str "delete_patient"), ("status", .str "success"),
     ("data", .obj [("patient_id", .str "P001")])] "delete_patient"
    rfl rfl rfl rfl rfl
  simpa using h

set_option maxHeartbeats 1000000 in
/-- Exhaustive shape analysis of `validate_body`: it either raises, or
returns an error envelope carrying at least one violation, or returns the
clean success envelope. -/
theorem validate_body_shape (name : String) (resp : JValue) :
    (∃ e, validate_body name resp = .error e) ∨
    (∃ vs ss, vs ≠ [] ∧ validate_body name resp =
      .ok (validationEnvelope "error" false vs ss .null)) ∨
    validate_body name resp = .ok (validationEnvelope "success" true [] [] .null) := by
  unfold validate_body
  cases resp <;>
    simp only [pyContainsKey, pySubscript, Except.bind, bind, pure, Except.pure] <;>
    first
      | (exact Or.inl ⟨_, rfl⟩)
      | (repeat' split) <;>
        first
          | (exact Or.inl ⟨_, rfl⟩)
          | (solve | (exfalso; simp_all))
          | (refine Or.inr (Or.inl ⟨_, _, by simp, rfl⟩))
          | (exact Or.inr (Or.inr rfl))

/-- Every result of `validate_response` is an error envelope with at least
one violation or the clean success envelope. -/
theorem validate_response_shape (name : String) (resp : JValue) :
    (∃ vs ss ef, vs ≠ [] ∧ validate_response name resp =
      validationEnvelope "error" false vs ss ef) ∨
    validate_response name resp = validationEnvelope "success" true [] [] .null := by
  unfold validate_response
  rcases validate_body_shape name resp with ⟨e, h⟩ | ⟨vs, ss, hvs, h⟩ | h <;> rw [h]
  · exact Or.inl ⟨[e], _, _, by simp, rfl⟩
  · exact Or.inl ⟨vs, ss, _, hvs, rfl⟩
  · exact Or.inr rfl

/-- C3: `validate` is total for every agent identity and response value —
the model of its body under the `except` handler always yields a
validation envelope — and the envelope satisfies `is_valid = true` iff
`violations` is empty, with `is_valid = true` also forcing `suggestions`
to be empty. -/
theorem validate_total_wellformed (name : String) (resp : JValue) :
    ∃ (b : Bool) (vs ss : List String) (ef : JValue),
      validate_response name resp =
        validationEnvelope (if b then "success" else "error") b vs ss ef
      ∧ (b = true ↔ vs = []) ∧ (b = true → ss = []) := by
  rcases validate_response_shape name resp with ⟨vs, ss, ef, hvs, h⟩ | h
  · exact ⟨false, vs, ss, ef, h, by simp [hvs], by simp⟩
  · exact ⟨true, [], [], .null, h, by simp, by simp⟩

/-- Benign database oracle: connection succeeds, lookups find nothing. -/
def dbStub : EHRDb :=
  ⟨.ok (), fun _ => .ok none, .ok [], .ok "UPDATE 0", .ok (.num 0), .ok ()⟩

/-- Database oracle whose connection pool creation fails. -/
def dbConnectFail : EHRDb :=
  ⟨.error "connection refused", fun _ => .ok none, .ok [], .ok "UPDATE 0",
   .ok (.num 0), .ok ()⟩

/-- Counterexample to C7: on a parsed reply with `operation="retrieve"`
and empty `data`, the EHR agent returns the bare error text
`"No data provided"`, not `"No data provided for operation: retrieve"`
as the claim states for every agent variant. -/
theorem ehr_no_data_message_cex :
    ehr_process_message
      (.completion
        "\x7b\"operation\": \"retrieve\", \"status\": \"success\", \"data\": \x7b\x7d\x7d")
      dbStub =
      .ok (errorReturnEnvelope (.str "retrieve") (.str "No data provided")) ∧
    "No data provided" ≠ "No data provided for operation: retrieve" := by
  exact ⟨rfl, by decide⟩

/-- C7 as amended: on a parsed reply whose `error` is falsy and whose
`data` is falsy (missing or empty), the Scheduling agent and the shared
Medication/Order/Analytics body return
`{operation, status:"error", data:null, error:"No data provided for
operation: <op>"}`, while the EHR agent returns the same envelope with the
bare message `"No data provided"`; none of these passes onward as a
success. -/
theorem no_data_error_envelopes (fs : List (String × JValue))
    (herr : ((assocFind fs "error").getD .null).truthy = false)
    (hdat : ((assocFind fs "data").getD (.obj [])).truthy = false) :
    standard_agent_body (.obj fs) =
      .ok (noDataEnvelope ((assocFind fs "operation").getD (.str ""))) ∧
    scheduling_body (.obj fs) =
      .ok (noDataEnvelope ((assocFind fs "operation").getD (.str ""))) ∧
    (∀ db : EHRDb, ehr_body (.obj fs) db =
      .ok (errorReturnEnvelope ((assocFind fs "operation").getD (.str ""))
        (.str "No data provided"))) := by
  refine ⟨?_, ?_, fun db => ?_⟩ <;>
    simp [standard_agent_body, scheduling_body, ehr_body, pyGet, herr, hdat,
      Except.bind, bind, pure, Except.pure]

/-- Witness for the amended C7 at an empty-`data` retrieve reply. -/
theorem no_data_error_envelopes_witness :
    standard_agent_body
      (.obj [("operation", .str "retrieve"), ("status", .str "success"),
             ("data", .obj [])]) =
      .ok (noDataEnvelope (.str "retrieve")) :=
  (no_data_error_envelopes
    [("operation", .str "retrieve"), ("status", .str "success"),
     ("data", .obj [])] rfl rfl).1

/-- Counterexample to C8: the Scheduling agent does not echo `data`
verbatim — it deletes the `"error"` key from each entry of
`data["available_appointments"]` before building the success envelope. -/
theorem scheduling_data_mutation_cex :
    scheduling_body (.obj [("operation", .str "search_appointments"),
      ("status", .str "success"),
      ("data", .obj [("available_appointments",
        .arr [.obj [("date", .str "2024-03-13"), ("error", .null)]])]),
      ("error", .null)]) =
      .ok (successEnvelope (.str "search_appointments")
        (.obj [("available_appointments",
          .arr [.obj [("date", .str "2024-03-13")]])])) ∧
    (JValue.obj [("available_appointments",
        .arr [.obj [("date", .str "2024-03-13")]])]) ≠
      .obj [("available_appointments",
        .arr [.obj [("date", .str "2024-03-13"), ("error", .null)]])] := by
  constructor
  · rfl
  · simp

/-- C8 as amended: with a falsy `error` and truthy `data`, the shared
Medication/Order/Analytics body echoes `data` verbatim in
`{operation, status:"success", data, error:null}`; the Scheduling agent
does so only when `data` is a dict without an `available_appointments`
key (otherwise it strips nested `"error"` keys there); the EHR agent never
echoes — it dispatches to its CRUD handlers and returns an
`"Unsupported operation"` error for any other operation. -/
theorem success_echo_behaviour (fs : List (String × JValue))
    (herr : ((assocFind fs "error").getD .null).truthy = false)
    (hdat : ((assocFind fs "data").getD (.obj [])).truthy = true) :
    standard_agent_body (.obj fs) =
      .ok (successEnvelope ((assocFind fs "operation").getD (.str ""))
        ((assocFind fs "data").getD (.obj []))) ∧
    (∀ gs, (assocFind fs "data").getD (.obj []) = .obj gs →
      assocFind gs "available_appointments" = none →
      scheduling_body (.obj fs) =
        .ok (successEnvelope ((assocFind fs "operation").getD (.str "")) (.obj gs))) ∧
    (jEqStr ((assocFind fs "operation").getD (.str "")) "retrieve" = false →
     jEqStr ((assocFind fs "operation").getD (.str "")) "update" = false →
     jEqStr ((assocFind fs "operation").getD (.str "")) "create" = false →
     ∀ db : EHRDb, ehr_body (.obj fs) db =
       .ok (errorReturnEnvelope ((assocFind fs "operation").getD (.str ""))
         (.str "Unsupported operation"))) := by
  refine ⟨?_, fun gs hgs haa => ?_, fun h1 h2 h3 db => ?_⟩
  · simp [standard_agent_body, pyGet, herr, hdat, Except.bind, bind, pure,
      Except.pure]
  · have hdat' : (JValue.obj gs).truthy = true := hgs ▸ hdat
    simp [scheduling_body, pyGet, pyContainsKey, herr, hgs, haa, hdat',
      Except.bind, bind, pure, Except.pure]
  · simp [ehr_body, pyGet, herr, hdat, h1, h2, h3, Except.bind, bind, pure,
      Except.pure]

/-- Witness for the amended C8 at a non-empty `get_info` reply. -/
theorem success_echo_behaviour_witness :
    standard_agent_body
      (.obj [("operation", .str "get_info"), ("status", .str "success"),
             ("data", .obj [("name", .str "Metformin")]), ("error", .null)]) =
      .ok (successEnvelope (.str "get_info") (.obj [("name", .str "Metformin")])) :=
  (success_echo_behaviour
    [("operation", .str "get_info"), ("status", .str "success"),
     ("data", .obj [("name", .str "Metformin")]), ("error", .null)] rfl rfl).1

/-- Raw model output that fails `json.loads` (a literal backslash-n
between tokens) but parses after one pass of the documented repair. -/
def sBadOrder : String :=
  "\x7b\"operation\": \"create_order\",\\n \"status\": \"success\", \"data\": \x7b\"x\": 1\x7d, \"error\": null\x7d"

/-- Counterexample to C6: this reply fails parsing, a single repair pass
stripping the backslash-n / backslash-quote artifacts would make it parse
to a well-formed success reply, yet the Order agent returns the
parse-failure envelope directly — it performs no repair attempt at all. -/
theorem order_no_repair_cex :
    json_loads sBadOrder = none ∧
    json_loads (pyReplace (pyReplace sBadOrder "\\n" " ") "\\\"" "\"") =
      some (.obj [("operation", .str "create_order"), ("status", .str "success"),
                  ("data", .obj [("x", .num 1)]), ("error", .null)]) ∧
    order_process_message_str sBadOrder =
      exceptEnvelope ("Invalid JSON response from LLM: " ++ jsonDecodeErrMsg) :=
  ⟨rfl, rfl, rfl⟩

/-- C6 as amended: when the reply string fails `json.loads`, the
Scheduling agent applies exactly one repair pass (backslash-n,
backslash-quote, and additionally literal `"error": null` artifacts) and
retries once; the Medication agent and the EHR parse stage apply one
repair pass (backslash-n and backslash-quote) and retry once; the Order
and Analytics agents return the `operation:"unknown"` error envelope
immediately with no repair. None of them re-invokes the model: each
outcome is a function of the reply string alone. -/
theorem parse_repair_behaviour (s : String) (h : json_loads s = none) :
    (scheduling_process_message_str s =
      match json_loads (pyReplace (pyReplace
          (pyReplace (pyReplace s "\\n" " ") "\\\"" "\"")
          "\"error\": null," "") "\"error\": null" "") with
      | some rd => runWithHandler (scheduling_body rd) exceptEnvelope
      | none => exceptEnvelope ("Invalid JSON response from LLM: " ++ jsonDecodeErrMsg)) ∧
    (medication_process_message_str s =
      match json_loads (pyReplace (pyReplace s "\\n" " ") "\\\"" "\"") with
      | some rd => runWithHandler (standard_agent_body rd) exceptEnvelope
      | none => exceptEnvelope ("Invalid JSON response from LLM: " ++ jsonDecodeErrMsg)) ∧
    (ehr_parse_stage s =
      match json_loads (pyReplace (pyReplace s "\\n" " ") "\\\"" "\"") with
      | some rd => .inl rd
      | none => .inr (ehrExceptEnvelope jsonDecodeErrMsg)) ∧
    order_process_message_str s =
      exceptEnvelope ("Invalid JSON response from LLM: " ++ jsonDecodeErrMsg) ∧
    analytics_process_message_str s =
      exceptEnvelope ("Invalid JSON response from LLM: " ++ jsonDecodeErrMsg) := by
  refine ⟨?_, ?_, ?_, ?_, ?_⟩
  · simp only [scheduling_process_message_str, scheduling_parse_stage, h]
    cases hj : json_loads (pyReplace (pyReplace
        (pyReplace (pyReplace s "\\n" " ") "\\\"" "\"")
        "\"error\": null," "") "\"error\": null" "") <;> simp [hj]
  · simp only [medication_process_message_str, medication_parse_stage, h]
    cases hj : json_loads (pyReplace (pyReplace s "\\n" " ") "\\\"" "\"") <;>
      simp [hj]
  · simp only [ehr_parse_stage, h]
  · simp [order_process_message_str, order_parse_stage, h]
  · simp [analytics_process_message_str, analytics_parse_stage, h]

/-- Witness for the amended C6 at an unparsable reply. -/
theorem parse_repair_behaviour_witness :
    order_process_message_str "not json at all" =
      exceptEnvelope ("Invalid JSON response from LLM: " ++ jsonDecodeErrMsg) :=
  (parse_repair_behaviour "not json at all" rfl).2.2.2.1

theorem llm_error_text_nonempty (msg : String) :
    ("Error calling LLM: " ++ msg) ≠ "" := by
  intro hcontra
  have h2 := congrArg String.length hcontra
  simp [String.length_append] at h2
  exact absurd h2.1 (by decide)

/-- A response envelope whose `status` is `"success"` or `"error"`. -/
def envStatusOk (r : JValue) : Prop :=
  respField r "status" = some (.str "success") ∨
  respField r "status" = some (.str "error")

/-- Shape analysis of the shared Medication/Order/Analytics body. -/
theorem standard_body_cases (rd : JValue) :
    (∃ op errv, standard_agent_body rd = .ok (errorReturnEnvelope op errv)) ∨
    (∃ op d, standard_agent_body rd = .ok (successEnvelope op d)) ∨
    (∃ e, standard_agent_body rd = .error e) := by
  unfold standard_agent_body
  cases rd <;>
    simp only [pyGet, Except.bind, bind, pure, Except.pure, noDataEnvelope] <;>
    (repeat' split) <;>
    first
      | (exact Or.inl ⟨_, _, rfl⟩)
      | (exact Or.inr (Or.inl ⟨_, _, rfl⟩))
      | (exact Or.inr (Or.inr ⟨_, rfl⟩))

/-- Shape analysis of the Scheduling body. -/
theorem scheduling_body_cases (rd : JValue) :
    (∃ op errv, scheduling_body rd = .ok (errorReturnEnvelope op errv)) ∨
    (∃ op d, scheduling_body rd = .ok (successEnvelope op d)) ∨
    (∃ e, scheduling_body rd = .error e) := by
  unfold scheduling_body
  cases rd <;>
    simp only [pyGet, pyContainsKey, pySubscript, pyIterate, pyItems,
      Except.bind, bind, pure, Except.pure, noDataEnvelope] <;>
    (repeat' split) <;>
    first
      | (exact Or.inl ⟨_, _, rfl⟩)
      | (exact Or.inr (Or.inl ⟨_, _, rfl⟩))
      | (exact Or.inr (Or.inr ⟨_, rfl⟩))

/-- Shape analysis of `EHRAgent._handle_retrieve`. -/
theorem ehr_retrieve_cases (data : JValue) (db : EHRDb) :
    (∃ d, ehr_handle_retrieve data db = .ok (handlerEnvelope "success" d .null)) ∨
    (∃ m, ehr_handle_retrieve data db = .ok (handlerEnvelope "error" .null (.str m))) ∨
    (∃ e, ehr_handle_retrieve data db = .error e) := by
  unfold ehr_handle_retrieve
  cases data <;>
    simp only [pyGet, Except.bind, bind, pure, Except.pure] <;>
    (repeat' split) <;>
    first
      | (exact Or.inl ⟨_, rfl⟩)
      | (exact Or.inr (Or.inl ⟨_, rfl⟩))
      | (exact Or.inr (Or.inr ⟨_, rfl⟩))

/-- Shape analysis of `EHRAgent._handle_update`. -/
theorem ehr_update_cases (data : JValue) (db : EHRDb) :
    (∃ d, ehr_handle_update data db = .ok (handlerEnvelope "success" d .null)) ∨
    (∃ m, ehr_handle_update data db = .ok (handlerEnvelope "error" .null (.str m))) ∨
    (∃ e, ehr_handle_update data db = .error e) := by
  unfold ehr_handle_update
  cases data <;>
    simp only [pyGet, pyItems, Except.bind, bind, pure, Except.pure] <;>
    (repeat' split) <;>
    first
      | (exact Or.inl ⟨_, rfl⟩)
      | (exact Or.inr (Or.inl ⟨_, rfl⟩))
      | (exact Or.inr (Or.inr ⟨_, rfl⟩))

/-- Shape analysis of `EHRAgent._handle_create`. -/
theorem ehr_create_cases (data : JValue) (db : EHRDb) :
    (∃ d, ehr_handle_create data db = .ok (handlerEnvelope "success" d .null)) ∨
    (∃ m, ehr_handle_create data db = .ok (handlerEnvelope "error" .null (.str m))) ∨
    (∃ e, ehr_handle_create data db = .error e) := by
  unfold ehr_handle_create
  cases data <;>
    simp only [pyGet, pyIntOf, Except.bind, bind, pure, Except.pure] <;>
    (repeat' split) <;>
    first
      | (exact Or.inl ⟨_, rfl⟩)
      | (exact Or.inr (Or.inl ⟨_, rfl⟩))
      | (exact Or.inr (Or.inr ⟨_, rfl⟩))

/-- Shape analysis of the full EHR body. -/
theorem ehr_body_cases (rd : JValue) (db : EHRDb) :
    (∃ op errv, ehr_body rd db = .ok (errorReturnEnvelope op errv)) ∨
    (∃ d, ehr_body rd db = .ok (handlerEnvelope "success" d .null)) ∨
    (∃ m, ehr_body rd db = .ok (handlerEnvelope "error" .null (.str m))) ∨
    (∃ e, ehr_body rd db = .error e) := by
  unfold ehr_body
  cases rd <;>
    simp only [pyGet, Except.bind, bind, pure, Except.pure] <;>
    (repeat' split) <;>
    first
      | (exact Or.inl ⟨_, _, rfl⟩)
      | (exact Or.inr (Or.inr (Or.inr ⟨_, rfl⟩)))
      | (rcases ehr_retrieve_cases _ db with ⟨d, h⟩ | ⟨m, h⟩ | ⟨e, h⟩ <;> rw [h] <;>
           first
             | (exact Or.inr (Or.inl ⟨_, rfl⟩))
             | (exact Or.inr (Or.inr (Or.inl ⟨_, rfl⟩)))
             | (exact Or.inr (Or.inr (Or.inr ⟨_, rfl⟩))))
      | (rcases ehr_update_cases _ db with ⟨d, h⟩ | ⟨m, h⟩ | ⟨e, h⟩ <;> rw [h] <;>
           first
             | (exact Or.inr (Or.inl ⟨_, rfl⟩))
             | (exact Or.inr (Or.inr (Or.inl ⟨_, rfl⟩)))
             | (exact Or.inr (Or.inr (Or.inr ⟨_, rfl⟩))))
      | (rcases ehr_create_cases _ db with ⟨d, h⟩ | ⟨m, h⟩ | ⟨e, h⟩ <;> rw [h] <;>
           first
             | (exact Or.inr (Or.inl ⟨_, rfl⟩))
             | (exact Or.inr (Or.inr (Or.inl ⟨_, rfl⟩)))
             | (exact Or.inr (Or.inr (Or.inr ⟨_, rfl⟩))))

/-- Counterexample to C5: when creating the connection pool fails, the EHR
agent's `process_message` raises past the agent boundary instead of
returning an error-status envelope, because `await self._connect_db()`
precedes the `try` block. -/
theorem ehr_connect_raise_cex :
    ehr_process_message (.completion "x") dbConnectFail =
      .error "connection refused" := rfl

/-- C5 as amended: the Scheduling, Medication, Order and Analytics agents
never raise — for every model outcome, `process_message` returns an
envelope with `status` `"success"` or `"error"`, and a raised model call
is converted to an error-status envelope; the EHR agent also returns such
an envelope whenever its database connection step succeeds (the connect
step itself, being outside the `try` block, is the one raising path — see
the counterexample). -/
theorem process_message_no_raise (o : LLMOutcome) (db : EHRDb) (msg : String)
    (hdb : db.connect = .ok ()) :
    envStatusOk (scheduling_process_message o) ∧
    envStatusOk (medication_process_message o) ∧
    envStatusOk (order_process_message o) ∧
    envStatusOk (analytics_process_message o) ∧
    (∃ r, ehr_process_message o db = .ok r ∧ envStatusOk r) ∧
    respField (scheduling_process_message (.raised msg)) "status" =
      some (.str "error") ∧
    respField (order_process_message (.raised msg)) "status" =
      some (.str "error") := by
  have hstd : ∀ rd, envStatusOk (runWithHandler (standard_agent_body rd) exceptEnvelope) := by
    intro rd
    rcases standard_body_cases rd with ⟨op, errv, h⟩ | ⟨op, d, h⟩ | ⟨e, h⟩ <;>
      simp [runWithHandler, h, envStatusOk, respField, errorReturnEnvelope,
        successEnvelope, exceptEnvelope, assocFind]
  have hsched : ∀ rd, envStatusOk (runWithHandler (scheduling_body rd) exceptEnvelope) := by
    intro rd
    rcases scheduling_body_cases rd with ⟨op, errv, h⟩ | ⟨op, d, h⟩ | ⟨e, h⟩ <;>
      simp [runWithHandler, h, envStatusOk, respField, errorReturnEnvelope,
        successEnvelope, exceptEnvelope, assocFind]
  have hehr : ∀ rd, envStatusOk (runWithHandler (ehr_body rd db) ehrExceptEnvelope) := by
    intro rd
    rcases ehr_body_cases rd db with ⟨op, errv, h⟩ | ⟨d, h⟩ | ⟨m, h⟩ | ⟨e, h⟩ <;>
      simp [runWithHandler, h, envStatusOk, respField, errorReturnEnvelope,
        handlerEnvelope, ehrExceptEnvelope, assocFind]
  have hraise : respField (runWithHandler
      (standard_agent_body (call_llm_value (.raised msg))) exceptEnvelope) "status" =
        some (.str "error") := by
    simp [call_llm_value, standard_agent_body, pyGet, assocFind, runWithHandler,
      JValue.truthy, respField, errorReturnEnvelope, llm_error_text_nonempty msg,
      Except.bind, bind, pure, Except.pure]
  have hraiseSched : respField (runWithHandler
      (scheduling_body (call_llm_value (.raised msg))) exceptEnvelope) "status" =
        some (.str "error") := by
    simp [call_llm_value, scheduling_body, pyGet, assocFind, runWithHandler,
      JValue.truthy, respField, errorReturnEnvelope, llm_error_text_nonempty msg,
      Except.bind, bind, pure, Except.pure]
  refine ⟨hsched _, hstd _, hstd _, hstd _,
    ⟨runWithHandler (ehr_body (call_llm_value o) db) ehrExceptEnvelope, ?_, hehr _⟩,
    hraiseSched, hraise⟩
  simp [ehr_process_message, hdb]

/-- Witness for the amended C5 at a concrete outcome and database. -/
theorem process_message_no_raise_witness :
    envStatusOk (order_process_message (.completion "x")) ∧
    (∃ r, ehr_process_message (.completion "x") dbStub = .ok r ∧ envStatusOk r) := by
  have h := process_message_no_raise (.completion "x") dbStub "m" rfl
  exact ⟨h.2.2.1, h.2.2.2.2.1⟩

/-- A response lacking the `operation` key never validates. -/
theorem validate_opMissing (name : String) (fs : List (String × JValue))
    (h : assocFind fs "operation" = none) :
    isValidFlag (validate_response name (.obj fs)) = some (.bool false) := by
  simp [validate_response, validate_body, pyContainsKey, h, Except.bind, bind,
    pure, Except.pure, isValidFlag, respField, validationEnvelope, assocFind]

/-- A response whose `data` is `None` never validates: it is rejected by
the whitelist check or by the `data`-must-be-a-dict check. -/
theorem validate_dataNull (name : String) (fs : List (String × JValue))
    (h1 : (assocFind fs "operation").isSome = true)
    (h2 : (assocFind fs "status").isSome = true)
    (h3 : assocFind fs "data" = some .null) :
    isValidFlag (validate_response name (.obj fs)) = some (.bool false) := by
  obtain ⟨v, hv⟩ := Option.isSome_iff_exists.mp h1
  cases hl : lookupOps name with
  | none =>
      simp [validate_response, validate_body, pyContainsKey, pySubscript, h1, h2,
        h3, hv, hl, Except.bind, bind, pure, Except.pure, isValidFlag, respField,
        validationEnvelope, assocFind]
  | some ops =>
      cases hin : jInStrList v ops <;>
        simp [validate_response, validate_body, pyContainsKey, pySubscript, h1,
          h2, h3, hv, hl, hin, Except.bind, bind, pure, Except.pure, isValidFlag,
          respField, validationEnvelope, assocFind]

/-- The Orchestrator's abort condition evaluates without raising on every
Validator envelope, and agrees with the `is_valid` verdict. -/
theorem validate_orch_dichotomy (name : String) (resp : JValue) :
    (orchCondition (validate_response name resp) = .ok true ∧
      isValidFlag (validate_response name resp) = some (.bool false)) ∨
    (orchCondition (validate_response name resp) = .ok false ∧
      isValidFlag (validate_response name resp) = some (.bool true)) := by
  rcases validate_response_shape name resp with ⟨vs, ss, ef, hvs, h⟩ | h <;> rw [h]
  · exact Or.inl ⟨rfl, rfl⟩
  · exact Or.inr ⟨rfl, rfl⟩

/-- Every envelope an invoked agent can hand the Orchestrator is one of
the six envelope constructors. -/
theorem dispatch_ok_cases (tag : AgentTag) (o : LLMOutcome) (db : EHRDb)
    (r : JValue) (hok : agent_process_dispatch tag o db = .ok r) :
    (∃ op errv, r = errorReturnEnvelope op errv) ∨
    (∃ op d, r = successEnvelope op d) ∨
    (∃ m, r = exceptEnvelope m) ∨
    (∃ m, r = ehrExceptEnvelope m) ∨
    (∃ d, r = handlerEnvelope "success" d .null) ∨
    (∃ m, r = handlerEnvelope "error" .null (.str m)) := by
  cases tag
  case clinicalDecision => simp [agent_process_dispatch] at hok
  case ehr =>
    simp only [agent_process_dispatch, ehr_process_message] at hok
    cases hc : db.connect with
    | error e => rw [hc] at hok; simp at hok
    | ok u =>
        rw [hc] at hok
        simp only [Except.ok.injEq] at hok
        subst hok
        rcases ehr_body_cases (call_llm_value o) db with
          ⟨op, errv, h⟩ | ⟨d, h⟩ | ⟨m, h⟩ | ⟨e, h⟩ <;>
          simp only [runWithHandler, h] <;>
          first
            | (exact Or.inl ⟨_, _, rfl⟩)
            | (exact Or.inr (Or.inr (Or.inr (Or.inl ⟨_, rfl⟩))))
            | (exact Or.inr (Or.inr (Or.inr (Or.inr (Or.inl ⟨_, rfl⟩)))))
            | (exact Or.inr (Or.inr (Or.inr (Or.inr (Or.inr ⟨_, rfl⟩)))))
  case scheduling =>
    simp only [agent_process_dispatch, scheduling_process_message,
      Except.ok.injEq] at hok
    subst hok
    rcases scheduling_body_cases (call_llm_value o) with
      ⟨op, errv, h⟩ | ⟨op, d, h⟩ | ⟨e, h⟩ <;>
      simp only [runWithHandler, h] <;>
      first
        | (exact Or.inl ⟨_, _, rfl⟩)
        | (exact Or.inr (Or.inl ⟨_, _, rfl⟩))
        | (exact Or.inr (Or.inr (Or.inl ⟨_, rfl⟩)))
  all_goals (
    simp only [agent_process_dispatch, medication_process_message,
      order_process_message, analytics_process_message, Except.ok.injEq] at hok
    subst hok
    rcases standard_body_cases (call_llm_value o) with
      ⟨op, errv, h⟩ | ⟨op, d, h⟩ | ⟨e, h⟩ <;>
      simp only [runWithHandler, h] <;>
      first
        | (exact Or.inl ⟨_, _, rfl⟩)
        | (exact Or.inr (Or.inl ⟨_, _, rfl⟩))
        | (exact Or.inr (Or.inr (Or.inl ⟨_, rfl⟩))))

/-- An error-status response from any invoked agent never validates: its
`data` is `None` (so the dict check rejects it) or, for the EHR handler
envelopes, its `operation` key is absent entirely. -/
theorem dispatch_error_status_invalid (tag : AgentTag) (o : LLMOutcome)
    (db : EHRDb) (r : JValue)
    (hok : agent_process_dispatch tag o db = .ok r)
    (herr : respField r "status" = some (.str "error")) :
    isValidFlag (validate_response (className tag) r) = some (.bool false) := by
  rcases dispatch_ok_cases tag o db r hok with
    ⟨op, errv, h⟩ | ⟨op, d, h⟩ | ⟨m, h⟩ | ⟨m, h⟩ | ⟨d, h⟩ | ⟨m, h⟩ <;> subst h
  · exact validate_dataNull _ _ (by simp [errorReturnEnvelope, assocFind])
      (by simp [errorReturnEnvelope, assocFind])
      (by simp [errorReturnEnvelope, assocFind])
  · simp [successEnvelope, respField, assocFind] at herr
  · exact validate_dataNull _ _ (by simp [exceptEnvelope, assocFind])
      (by simp [exceptEnvelope, assocFind]) (by simp [exceptEnvelope, assocFind])
  · exact validate_dataNull _ _ (by simp [ehrExceptEnvelope, assocFind])
      (by simp [ehrExceptEnvelope, assocFind])
      (by simp [ehrExceptEnvelope, assocFind])
  · simp [handlerEnvelope, respField, assocFind] at herr
  · exact validate_opMissing _ _ (by simp [handlerEnvelope, assocFind])

/-- C1: for a routed utterance whose agent produces a response `r`, the
Orchestrator aborts — no state-monitor call, the validation report
rendered instead of the payload — precisely when `r` has error status or
fails validation; otherwise it records `r` with the state monitor and
renders `r`. The validator verdict on `r` is always a boolean, making the
two branches exhaustive. -/
theorem orchestrator_abort_policy (text : String) (o : LLMOutcome) (db : EHRDb)
    (st : InspState) (tag : AgentTag) (r : JValue)
    (hroute : route text = some tag)
    (hok : agent_process_dispatch tag o db = .ok r) :
    ((respField r "status" = some (.str "error") ∨
        isValidFlag (validate_response (className tag) r) = some (.bool false)) →
      handle_transcription text o db st =
        ⟨st, none, .validationFailed (validate_response (className tag) r)⟩) ∧
    (isValidFlag (validate_response (className tag) r) = some (.bool true) →
      handle_transcription text o db st =
        ⟨(monitor_state (className tag) r st).2, some (className tag, r),
         .rendered r⟩) ∧
    (isValidFlag (validate_response (className tag) r) = some (.bool false) ∨
      isValidFlag (validate_response (className tag) r) = some (.bool true)) := by
  rcases validate_orch_dichotomy (className tag) r with ⟨hcond, hflag⟩ | ⟨hcond, hflag⟩
  · refine ⟨fun _ => ?_, fun hvalid => ?_, Or.inl hflag⟩
    · unfold handle_transcription
      rw [hroute]
      simp [hok, hcond]
    · simp [hflag] at hvalid
  · refine ⟨fun hdisj => ?_, fun _ => ?_, Or.inr hflag⟩
    · rcases hdisj with herr | hinv
      · have hinv2 := dispatch_error_status_invalid tag o db r hok herr
        simp [hinv2] at hflag
      · simp [hinv] at hflag
    · unfold handle_transcription
      rw [hroute]
      simp [hok, hcond]

/-- Kept model reply used by the C1 witness. -/
def schedOkStr : String :=
  "\x7b\"operation\": \"schedule_appointment\", \"status\": \"success\", \"data\": \x7b\"appointment_id\": \"A002\"\x7d, \"error\": null\x7d"

/-- Witness for C1: a scheduling utterance with a well-formed model reply
reaches the state monitor and is rendered. -/
theorem orchestrator_abort_policy_witness :
    handle_transcription "Schedule an appointment" (.completion schedOkStr)
      dbStub [] =
      ⟨(monitor_state "SchedulingAgent"
          (successEnvelope (.str "schedule_appointment")
            (.obj [("appointment_id", .str "A002")])) []).2,
       some ("SchedulingAgent",
         successEnvelope (.str "schedule_appointment")
           (.obj [("appointment_id", .str "A002")])),
       .rendered (successEnvelope (.str "schedule_appointment")
         (.obj [("appointment_id", .str "A002")]))⟩ :=
  (orchestrator_abort_policy "Schedule an appointment" (.completion schedOkStr)
    dbStub [] .scheduling
    (successEnvelope (.str "schedule_appointment")
      (.obj [("appointment_id", .str "A002")]))
    rfl rfl).2.1 rfl
